import Mathlib

/-!
Verification development for the ember-sentinel-system dashboard.

The embedding covers the two source components:
* `LocationDetails` (src/unnamed/part_000): the per-location detail view with
  the threshold-based sensor status classifier, the ThingSpeak request bodies
  for the latest reading and the 50-sample history, and the 10-second polling
  timer registered on mount and cleared on unmount.
* `PendingLocationRequests` (src/src/pages/PendingLocationRequests.tsx): the
  reviewer page whose approve handler inserts a `locations` row and then
  updates the originating `location_requests` row, and whose reject handler
  updates the request row only.

Remote calls are embedded as explicit state passing over a `DB` value holding
the two tables, with the outcome of each remote call (the authenticated user,
and whether each write errors) passed in as parameters; the list of writes the
handler successfully applied is returned alongside the new state.
-/

namespace EmberSentinel

/-! Threshold classification (src/unnamed/part_000, lines 165-169). -/

/-- Threshold pair passed to `getSensorStatus` (object literal `warning`/`danger`
in the source). Sensor values are JS numbers; they are embedded as rationals,
on which the two comparisons of the source are exact. -/
structure Thresholds where
  warning : ℚ
  danger : ℚ
deriving DecidableEq

/-- Embedding of `getSensorStatus` (src/unnamed/part_000 lines 165-169):
`value >= danger` gives "danger", else `value >= warning` gives "warning",
else "normal". -/
def getSensorStatus (value : ℚ) (thresholds : Thresholds) : String :=
  if value ≥ thresholds.danger then "danger"
  else if value ≥ thresholds.warning then "warning"
  else "normal"

/-- The gas thresholds the view passes at the call site
(src/unnamed/part_000 line 251): warning 300, danger 500. -/
def gasThresholds : Thresholds := ⟨300, 500⟩

/-- C1: for every value and threshold pair, `getSensorStatus` returns "danger"
when the value is at least the danger threshold, "warning" when the value lies
between the warning threshold (inclusive) and the danger threshold (exclusive),
and "normal" otherwise (value below both thresholds). -/
theorem C1_threshold_classification (v : ℚ) (t : Thresholds) :
    (t.danger ≤ v → getSensorStatus v t = "danger") ∧
    (t.warning ≤ v ∧ v < t.danger → getSensorStatus v t = "warning") ∧
    (v < t.danger ∧ v < t.warning → getSensorStatus v t = "normal") := by
  unfold getSensorStatus
  refine ⟨fun h => ?_, fun h => ?_, fun h => ?_⟩
  · rw [if_pos h]
  · rw [if_neg (not_le.mpr h.2), if_pos h.1]
  · rw [if_neg (not_le.mpr h.1), if_neg (not_le.mpr h.2)]

/-- Witness for C1 at the gas thresholds of the source: 500 classifies as
"danger", 300 as "warning", 299 as "normal". -/
theorem C1_witness :
    getSensorStatus 500 gasThresholds = "danger" ∧
    getSensorStatus 300 gasThresholds = "warning" ∧
    getSensorStatus 299 gasThresholds = "normal" :=
  ⟨(C1_threshold_classification 500 gasThresholds).1 (by norm_num [gasThresholds]),
   (C1_threshold_classification 300 gasThresholds).2.1
     ⟨by norm_num [gasThresholds], by norm_num [gasThresholds]⟩,
   (C1_threshold_classification 299 gasThresholds).2.2
     ⟨by norm_num [gasThresholds], by norm_num [gasThresholds]⟩⟩

/-! ThingSpeak request bodies (src/unnamed/part_000, lines 90-143). -/

/-- JSON-like values, enough to embed the object literals the view sends as
request bodies to the `thingspeak-service` remote function. -/
inductive Json where
  | str (s : String)
  | num (n : Nat)
  | obj (fields : List (String × Json))

/-- Top-level keys of a JSON object, in source order. -/
def Json.keys : Json → List String
  | .obj fields => fields.map Prod.fst
  | _ => []

/-- Value of a top-level key of a JSON object. -/
def Json.lookup (j : Json) (k : String) : Option Json :=
  match j with
  | .obj fields => List.lookup k fields
  | _ => none

/-- The `location` object literal sent inside both request bodies
(src/unnamed/part_000 lines 97-100 and 121-124): the two ThingSpeak
credential fields, under their source key names. -/
def locationPayload (channelId readKey : String) : Json :=
  .obj [("thingspeak_channel_id", .str channelId),
        ("thingspeak_read_key", .str readKey)]

/-- Request body built by `fetchSensorData` (src/unnamed/part_000
lines 95-102): action "latest" plus the location payload. -/
def latestBody (channelId readKey : String) : Json :=
  .obj [("action", .str "latest"),
        ("location", locationPayload channelId readKey)]

/-- Request body built by `fetchHistoricalData` (src/unnamed/part_000
lines 119-126): action "history", the location payload, and `results: 50`. -/
def historyBody (channelId readKey : String) : Json :=
  .obj [("action", .str "history"),
        ("location", locationPayload channelId readKey),
        ("results", .num 50)]

/-- The `Location` row shape of the detail view (src/unnamed/part_000
lines 18-27); the credential columns are nullable. -/
structure Location where
  id : String
  name : String
  region : String
  status : String
  latitude : ℚ
  longitude : ℚ
  thingspeak_channel_id : Option String
  thingspeak_read_key : Option String

/-- JS truthiness of a nullable string: null and "" are falsy, every other
string is truthy. Embeds the guards `!location?.thingspeak_channel_id` of
src/unnamed/part_000 lines 91 and 115. -/
def truthy : Option String → Bool
  | none => false
  | some s => s != ""

/-- Embedding of `fetchSensorData` (src/unnamed/part_000 lines 90-112) as the
request it issues from a given `location` state snapshot: `none` when the
state is null or a credential is falsy (the guard on line 91 returns before
any remote call), otherwise the "latest" body. -/
def fetchSensorData (location : Option Location) : Option Json :=
  match location with
  | none => none
  | some l =>
    if truthy l.thingspeak_channel_id && truthy l.thingspeak_read_key then
      some (latestBody (l.thingspeak_channel_id.getD "") (l.thingspeak_read_key.getD ""))
    else none

/-- Embedding of `fetchHistoricalData` (src/unnamed/part_000 lines 114-143) as
the request it issues from a given `location` state snapshot, with the same
guard as `fetchSensorData` and the "history" body carrying `results: 50`. -/
def fetchHistoricalData (location : Option Location) : Option Json :=
  match location with
  | none => none
  | some l =>
    if truthy l.thingspeak_channel_id && truthy l.thingspeak_read_key then
      some (historyBody (l.thingspeak_channel_id.getD "") (l.thingspeak_read_key.getD ""))
    else none

/-- Keys of the `location` object inside a request body. -/
def locationKeys (body : Json) : List String :=
  match body.lookup "location" with
  | some l => l.keys
  | none => []

/-! Polling timer (src/unnamed/part_000, lines 57-61). -/

/-- The interval period passed to `setInterval` on line 59. -/
def pollingPeriodMs : Nat := 10000

/-- Discrete model of the `setInterval` or `clearInterval` pair of the mount
effect (src/unnamed/part_000 lines 57-61): with the timer registered at
`mountTime` and cleared at `unmountTime`, the callback runs at time `t` iff
`t` is a whole number of periods after the mount and the timer has not yet
been cleared. -/
def pollFires (mountTime unmountTime t : Nat) : Bool :=
  decide (mountTime < t) && decide (t ≤ unmountTime)
    && ((t - mountTime) % pollingPeriodMs == 0)

/-- The initial `location` state of the component: `useState<Location | null>(null)`
(src/unnamed/part_000 line 50). -/
def initialLocationState : Option Location := none

/-- The request issued by the interval callback. The mount effect registers
`setInterval(fetchSensorData, 10000)` where `fetchSensorData` is the
mount-render closure, so the `location` state it reads is the state captured
at mount, which is the `useState` initial value null. -/
def mountIntervalRequest : Option Json := fetchSensorData initialLocationState

/-- A concrete location row with both telemetry credentials set, for
evaluating the fetch functions. -/
def sampleLocation : Location :=
  { id := "loc-1", name := "Hilltop", region := "North", status := "normal",
    latitude := 1, longitude := 2,
    thingspeak_channel_id := some "123", thingspeak_read_key := some "KEY" }

/-- C6 (code evaluated at the failing input): every tick of the polling
interval invokes the mount-render `fetchSensorData` closure, whose captured
`location` state is null, so no telemetry fetch is ever issued by polling —
even though `fetchSensorData` applied to a credentialed location would issue
the "latest" request, and the timer itself does fire at 10-second marks while
mounted and never after the unmount clears it. -/
theorem C6_stale_closure_no_poll_fetch :
    mountIntervalRequest = none ∧
    fetchSensorData (some sampleLocation) = some (latestBody "123" "KEY") ∧
    pollFires 0 100000 50000 = true ∧
    pollFires 0 100000 100001 = false :=
  ⟨rfl, rfl, by decide, by decide⟩

/-- C7: whenever the historical-data fetch issues a request, the `location`
state is a row whose two telemetry credentials are both present (truthy), and
the request body carries action "history" and asks for exactly 50 samples. -/
theorem C7_history_request (location : Option Location) (body : Json)
    (h : fetchHistoricalData location = some body) :
    ∃ l, location = some l ∧
      truthy l.thingspeak_channel_id = true ∧
      truthy l.thingspeak_read_key = true ∧
      body.lookup "action" = some (.str "history") ∧
      body.lookup "results" = some (.num 50) := by
  match location with
  | none => simp [fetchHistoricalData] at h
  | some l =>
    refine ⟨l, rfl, ?_⟩
    simp only [fetchHistoricalData] at h
    by_cases hc : truthy l.thingspeak_channel_id && truthy l.thingspeak_read_key
    · rw [if_pos hc] at h
      obtain ⟨h1, h2⟩ := Bool.and_eq_true_iff.mp hc
      injection h with hb
      subst hb
      exact ⟨h1, h2, rfl, rfl⟩
    · rw [if_neg hc] at h
      exact absurd h (by simp)

/-- Witness for C7 at the sample location: the guard passes and the issued
body carries action "history" and results 50. -/
theorem C7_witness :
    ∃ l, some sampleLocation = some l ∧
      truthy l.thingspeak_channel_id = true ∧
      truthy l.thingspeak_read_key = true ∧
      Json.lookup (historyBody "123" "KEY") "action" = some (.str "history") ∧
      Json.lookup (historyBody "123" "KEY") "results" = some (.num 50) :=
  C7_history_request (some sampleLocation) (historyBody "123" "KEY") rfl

/-- C8 counterexample: in the request the client actually sends, the
`location` object's field names are `thingspeak_channel_id` and
`thingspeak_read_key`, not `channel_id` and `read_key` as the claim states. -/
theorem C8_counterexample :
    locationKeys (latestBody "123" "KEY")
        = ["thingspeak_channel_id", "thingspeak_read_key"] ∧
    locationKeys (latestBody "123" "KEY") ≠ ["channel_id", "read_key"] :=
  ⟨rfl, by decide⟩

/-- C8 amended: every request body sent to the telemetry function has shape
action "latest" or "history", a `location` object carrying exactly the two
fields `thingspeak_channel_id` and `thingspeak_read_key`, and `results`
present only for the "history" action, where it equals 50. -/
theorem C8_request_shape (channelId readKey : String) :
    (latestBody channelId readKey).keys = ["action", "location"] ∧
    (historyBody channelId readKey).keys = ["action", "location", "results"] ∧
    (latestBody channelId readKey).lookup "action" = some (.str "latest") ∧
    (historyBody channelId readKey).lookup "action" = some (.str "history") ∧
    locationKeys (latestBody channelId readKey)
        = ["thingspeak_channel_id", "thingspeak_read_key"] ∧
    locationKeys (historyBody channelId readKey)
        = ["thingspeak_channel_id", "thingspeak_read_key"] ∧
    (latestBody channelId readKey).lookup "results" = none ∧
    (historyBody channelId readKey).lookup "results" = some (.num 50) :=
  ⟨rfl, rfl, rfl, rfl, rfl, rfl, rfl, rfl⟩

/-! Reviewer handlers (src/src/pages/PendingLocationRequests.tsx). -/

/-- A `location_requests` row, per the `LocationRequest` interface (lines 9-22)
plus the `reviewed_by`/`reviewed_at` columns the handlers write (lines 82-83). -/
structure RequestRow where
  id : String
  location_name : String
  region : String
  latitude : ℚ
  longitude : ℚ
  thingspeak_channel_id : String
  thingspeak_read_key : String
  reason : Option String
  status : Option String
  created_at : String
  user_id : String
  reviewed_by : Option String
  reviewed_at : Option String
deriving DecidableEq

/-- A `locations` row as inserted by `handleApprove` (lines 65-73). -/
structure LocationRow where
  name : String
  region : String
  latitude : ℚ
  longitude : ℚ
  thingspeak_channel_id : String
  thingspeak_read_key : String
  status : String
deriving DecidableEq

/-- The two remote tables the handlers touch. -/
structure DB where
  locations : List LocationRow
  location_requests : List RequestRow
deriving DecidableEq

/-- A write applied by a handler: an insert into `locations`, or a status
update of the `location_requests` rows whose id equals `reqId`. -/
inductive Write where
  | insertLocation (row : LocationRow)
  | updateRequestStatus (reqId : String) (newStatus : String)
deriving DecidableEq

/-- Whether a write is an insert into `locations`. -/
def Write.isInsert : Write → Bool
  | .insertLocation _ => true
  | _ => false

/-- Whether a write is an update of `location_requests`. -/
def Write.isUpdate : Write → Bool
  | .updateRequestStatus _ _ => true
  | _ => false

/-- The row contents of the `.update(...)` payload of the handlers
(lines 80-84 and 115-119) applied to one stored row. -/
def reviewRow (newStatus reviewerId reviewedAt : String) (r : RequestRow) : RequestRow :=
  { r with status := some newStatus, reviewed_by := some reviewerId,
           reviewed_at := some reviewedAt }

/-- The `.update(...).eq("id", request.id)` statement: every stored row whose
id equals `reqId` receives the update payload; no other row changes. The only
filter in the source is on the id column. -/
def applyReview (reqId newStatus reviewerId reviewedAt : String)
    (rows : List RequestRow) : List RequestRow :=
  rows.map (fun r => if r.id = reqId then reviewRow newStatus reviewerId reviewedAt r else r)

/-- The `locations` insert payload of `handleApprove` (lines 65-73): the
request's geo and credential fields copied over, status the literal "normal". -/
def newLocationRow (request : RequestRow) : LocationRow :=
  { name := request.location_name, region := request.region,
    latitude := request.latitude, longitude := request.longitude,
    thingspeak_channel_id := request.thingspeak_channel_id,
    thingspeak_read_key := request.thingspeak_read_key,
    status := "normal" }

/-- Embedding of `handleApprove` (lines 56-105). The outcomes of the remote
calls are parameters: `authUser` is what `supabase.auth.getUser()` returns,
and `insertError`/`updateError` say whether each write errors. The result is
the new table state, the writes that were applied, and whether the handler
completed without throwing. A thrown error aborts the handler at that point
(lines 60, 75, 87) with no further or compensating write. -/
def handleApprove (request : RequestRow) (authUser : Option String)
    (insertError updateError : Bool) (reviewedAt : String) (db : DB) :
    DB × List Write × Bool :=
  match authUser with
  | none => (db, [], false)
  | some uid =>
    if insertError then (db, [], false)
    else
      let row := newLocationRow request
      let db1 : DB := { db with locations := db.locations ++ [row] }
      if updateError then (db1, [Write.insertLocation row], false)
      else
        ({ db1 with location_requests :=
              applyReview request.id "approved" uid reviewedAt db1.location_requests },
         [Write.insertLocation row, Write.updateRequestStatus request.id "approved"],
         true)

/-- Embedding of `handleReject` (lines 107-140), with the same conventions as
`handleApprove`: auth check, then a single update setting the status to
"rejected" for the rows whose id matches. -/
def handleReject (request : RequestRow) (authUser : Option String)
    (updateError : Bool) (reviewedAt : String) (db : DB) :
    DB × List Write × Bool :=
  match authUser with
  | none => (db, [], false)
  | some uid =>
    if updateError then (db, [], false)
    else
      ({ db with location_requests :=
            applyReview request.id "rejected" uid reviewedAt db.location_requests },
       [Write.updateRequestStatus request.id "rejected"],
       true)

/-- Success shape of `handleApprove`: it completes without error exactly when
the auth lookup returned a user and neither write errored. -/
lemma handleApprove_ok_cases (request : RequestRow) (authUser : Option String)
    (insertError updateError : Bool) (reviewedAt : String) (db : DB)
    (hok : (handleApprove request authUser insertError updateError reviewedAt db).2.2 = true) :
    ∃ uid, authUser = some uid ∧ insertError = false ∧ updateError = false := by
  match authUser with
  | none => simp [handleApprove] at hok
  | some uid =>
    match insertError, updateError with
    | false, false => exact ⟨uid, rfl, rfl, rfl⟩
    | false, true => simp [handleApprove] at hok
    | true, _ => simp [handleApprove] at hok

/-- Success shape of `handleReject`. -/
lemma handleReject_ok_cases (request : RequestRow) (authUser : Option String)
    (updateError : Bool) (reviewedAt : String) (db : DB)
    (hok : (handleReject request authUser updateError reviewedAt db).2.2 = true) :
    ∃ uid, authUser = some uid ∧ updateError = false := by
  match authUser with
  | none => simp [handleReject] at hok
  | some uid =>
    match updateError with
    | false => exact ⟨uid, rfl, rfl⟩
    | true => simp [handleReject] at hok

/-- Pointwise effect of the reviewer update: the row at a given index is
updated when its id matches and is unchanged otherwise. -/
lemma applyReview_get? (reqId newStatus reviewerId reviewedAt : String)
    (rows : List RequestRow) (i : Nat) :
    (applyReview reqId newStatus reviewerId reviewedAt rows).get? i =
      (rows.get? i).map
        (fun r => if r.id = reqId then reviewRow newStatus reviewerId reviewedAt r else r) := by
  simp [applyReview]

/-- The reviewer update preserves the number of rows. -/
lemma applyReview_length (reqId newStatus reviewerId reviewedAt : String)
    (rows : List RequestRow) :
    (applyReview reqId newStatus reviewerId reviewedAt rows).length = rows.length := by
  simp [applyReview]

/-- A concrete pending request, for evaluating the handlers. -/
def sampleRequest : RequestRow :=
  { id := "req-1", location_name := "Hilltop", region := "North",
    latitude := 1, longitude := 2,
    thingspeak_channel_id := "123", thingspeak_read_key := "KEY",
    reason := some "close to forest", status := some "pending",
    created_at := "2024-01-01", user_id := "u-9",
    reviewed_by := none, reviewed_at := none }

/-- A concrete table state holding just the sample request. -/
def sampleDB : DB := { locations := [], location_requests := [sampleRequest] }

/-- The table state after a fully successful approval of the sample request. -/
def approvedDB : DB :=
  (handleApprove sampleRequest (some "admin") false false "t1" sampleDB).1

/-- C2: when the approve action completes without error, it applies exactly
one insert into `locations` (appending the new row) and exactly one update of
`location_requests`, and that update sets the status of exactly the rows
bearing the approved request's id to "approved", leaving every other row
unchanged. -/
theorem C2_approve_success (request : RequestRow) (authUser : Option String)
    (insertError updateError : Bool) (reviewedAt : String) (db : DB)
    (hok : (handleApprove request authUser insertError updateError reviewedAt db).2.2 = true) :
    (handleApprove request authUser insertError updateError reviewedAt db).2.1.countP
        Write.isInsert = 1 ∧
    (handleApprove request authUser insertError updateError reviewedAt db).2.1.countP
        Write.isUpdate = 1 ∧
    (handleApprove request authUser insertError updateError reviewedAt db).1.locations
        = db.locations ++ [newLocationRow request] ∧
    (handleApprove request authUser insertError updateError reviewedAt db).1.location_requests.length
        = db.location_requests.length ∧
    ∀ (i : Nat) (r : RequestRow), db.location_requests.get? i = some r →
      (r.id = request.id →
        ∃ r2, (handleApprove request authUser insertError updateError reviewedAt
                  db).1.location_requests.get? i = some r2 ∧
          r2.status = some "approved") ∧
      (r.id ≠ request.id →
        (handleApprove request authUser insertError updateError reviewedAt
            db).1.location_requests.get? i = some r) := by
  obtain ⟨uid, ha, hi, hu⟩ :=
    handleApprove_ok_cases request authUser insertError updateError reviewedAt db hok
  subst ha hi hu
  refine ⟨rfl, rfl, rfl, ?_, ?_⟩
  · exact applyReview_length request.id "approved" uid reviewedAt db.location_requests
  · intro i r hr
    constructor
    · intro hid
      refine ⟨reviewRow "approved" uid reviewedAt r, ?_, rfl⟩
      show (applyReview request.id "approved" uid reviewedAt
        db.location_requests).get? i = _
      rw [applyReview_get?, hr]
      simp [hid]
    · intro hid
      show (applyReview request.id "approved" uid reviewedAt
        db.location_requests).get? i = some r
      rw [applyReview_get?, hr]
      simp [hid]

/-- Witness for C2 at the sample request and table state. -/
theorem C2_witness :
    (handleApprove sampleRequest (some "admin") false false "t1" sampleDB).2.1.countP
        Write.isInsert = 1 ∧
    (handleApprove sampleRequest (some "admin") false false "t1" sampleDB).2.1.countP
        Write.isUpdate = 1 ∧
    (handleApprove sampleRequest (some "admin") false false "t1" sampleDB).1.locations
        = sampleDB.locations ++ [newLocationRow sampleRequest] ∧
    (handleApprove sampleRequest (some "admin") false false "t1"
        sampleDB).1.location_requests.length = sampleDB.location_requests.length ∧
    ∀ (i : Nat) (r : RequestRow), sampleDB.location_requests.get? i = some r →
      (r.id = sampleRequest.id →
        ∃ r2, (handleApprove sampleRequest (some "admin") false false "t1"
                  sampleDB).1.location_requests.get? i = some r2 ∧
          r2.status = some "approved") ∧
      (r.id ≠ sampleRequest.id →
        (handleApprove sampleRequest (some "admin") false false "t1"
            sampleDB).1.location_requests.get? i = some r) :=
  C2_approve_success sampleRequest (some "admin") false false "t1" sampleDB rfl

/-- C3: the approval flow is two sequential writes, insert then update, and in
the concrete execution where the insert succeeds and the status update errors,
the handler ends unsuccessfully with the inserted `locations` row in place,
the request row untouched with status still "pending", and the insert as the
only applied write — no compensating write occurs. -/
theorem C3_approve_not_atomic :
    (handleApprove sampleRequest (some "admin") false false "t1" sampleDB).2.1
        = [Write.insertLocation (newLocationRow sampleRequest),
           Write.updateRequestStatus sampleRequest.id "approved"] ∧
    (handleApprove sampleRequest (some "admin") false true "t1" sampleDB).2.2 = false ∧
    (handleApprove sampleRequest (some "admin") false true "t1" sampleDB).1.locations
        = [newLocationRow sampleRequest] ∧
    (handleApprove sampleRequest (some "admin") false true "t1" sampleDB).1.location_requests
        = [sampleRequest] ∧
    sampleRequest.status = some "pending" ∧
    (handleApprove sampleRequest (some "admin") false true "t1" sampleDB).2.1
        = [Write.insertLocation (newLocationRow sampleRequest)] :=
  ⟨rfl, rfl, rfl, rfl, rfl, rfl⟩

/-- C4: when the reject action completes without error, it leaves the
`locations` table exactly as it was, applies no insert, applies the single
status update, and that update sets the status of exactly the rows bearing
the rejected request's id to "rejected", leaving every other row unchanged. -/
theorem C4_reject_no_insert (request : RequestRow) (authUser : Option String)
    (updateError : Bool) (reviewedAt : String) (db : DB)
    (hok : (handleReject request authUser updateError reviewedAt db).2.2 = true) :
    (handleReject request authUser updateError reviewedAt db).1.locations = db.locations ∧
    (handleReject request authUser updateError reviewedAt db).2.1
        = [Write.updateRequestStatus request.id "rejected"] ∧
    (handleReject request authUser updateError reviewedAt db).2.1.countP
        Write.isInsert = 0 ∧
    ∀ (i : Nat) (r : RequestRow), db.location_requests.get? i = some r →
      (r.id = request.id →
        ∃ r2, (handleReject request authUser updateError reviewedAt
                  db).1.location_requests.get? i = some r2 ∧
          r2.status = some "rejected") ∧
      (r.id ≠ request.id →
        (handleReject request authUser updateError reviewedAt
            db).1.location_requests.get? i = some r) := by
  obtain ⟨uid, ha, hu⟩ :=
    handleReject_ok_cases request authUser updateError reviewedAt db hok
  subst ha hu
  refine ⟨rfl, rfl, rfl, ?_⟩
  intro i r hr
  constructor
  · intro hid
    refine ⟨reviewRow "rejected" uid reviewedAt r, ?_, rfl⟩
    show (applyReview request.id "rejected" uid reviewedAt
      db.location_requests).get? i = _
    rw [applyReview_get?, hr]
    simp [hid]
  · intro hid
    show (applyReview request.id "rejected" uid reviewedAt
      db.location_requests).get? i = some r
    rw [applyReview_get?, hr]
    simp [hid]

/-- Witness for C4 at the sample request and table state. -/
theorem C4_witness :
    (handleReject sampleRequest (some "admin") false "t1" sampleDB).1.locations
        = sampleDB.locations ∧
    (handleReject sampleRequest (some "admin") false "t1" sampleDB).2.1
        = [Write.updateRequestStatus sampleRequest.id "rejected"] ∧
    (handleReject sampleRequest (some "admin") false "t1" sampleDB).2.1.countP
        Write.isInsert = 0 ∧
    ∀ (i : Nat) (r : RequestRow), sampleDB.location_requests.get? i = some r →
      (r.id = sampleRequest.id →
        ∃ r2, (handleReject sampleRequest (some "admin") false "t1"
                  sampleDB).1.location_requests.get? i = some r2 ∧
          r2.status = some "rejected") ∧
      (r.id ≠ sampleRequest.id →
        (handleReject sampleRequest (some "admin") false "t1"
            sampleDB).1.location_requests.get? i = some r) :=
  C4_reject_no_insert sampleRequest (some "admin") false "t1" sampleDB rfl

/-- C5 counterexample: after a successful approval sets the sample request's
stored status to "approved", a later successful reject action on the same
request changes the stored status again, to "rejected" — so a status set to
"approved" by one reviewer action is changed by a later one, contrary to the
claim that the write is guarded against no-longer-pending requests. -/
theorem C5_counterexample :
    approvedDB.location_requests.map (fun r => r.status) = [some "approved"] ∧
    ((handleReject sampleRequest (some "admin2") false "t2" approvedDB).1.location_requests.map
        (fun r => r.status)) = [some "rejected"] ∧
    (handleReject sampleRequest (some "admin2") false "t2" approvedDB).2.2 = true :=
  ⟨rfl, rfl, rfl⟩

/-- C5 amended: the reviewer update filters only on the request id — there is
no pending-status guard — so a successful reviewer action sets the status of
every stored row with the given id regardless of that row's current status,
and a later reviewer action can therefore overwrite a status already set to
"approved" or "rejected". The status transitions at most once only when at
most one reviewer action targets the request. -/
theorem C5_no_pending_guard (request : RequestRow) (uid reviewedAt : String)
    (db : DB) (i : Nat) (r : RequestRow)
    (hr : db.location_requests.get? i = some r)
    (hid : r.id = request.id) :
    ∃ r2, (handleReject request (some uid) false reviewedAt
        db).1.location_requests.get? i = some r2 ∧
      r2.status = some "rejected" ∧ r2.id = r.id := by
  refine ⟨reviewRow "rejected" uid reviewedAt r, ?_, rfl, rfl⟩
  show (applyReview request.id "rejected" uid reviewedAt
    db.location_requests).get? i = _
  rw [applyReview_get?, hr]
  simp [hid]

/-- Witness for the amended C5: rejecting the sample request after it was
already approved still rewrites the stored row's status to "rejected". -/
theorem C5_witness :
    ∃ r2, (handleReject sampleRequest (some "admin2") false "t2"
        approvedDB).1.location_requests.get? 0 = some r2 ∧
      r2.status = some "rejected" ∧
      r2.id = (reviewRow "approved" "admin" "t1" sampleRequest).id :=
  C5_no_pending_guard sampleRequest "admin2" "t2" approvedDB 0
    (reviewRow "approved" "admin" "t1" sampleRequest) rfl rfl

/-- C9: the `locations` row the approve action inserts copies the request's
name, region, coordinates and both ThingSpeak credential fields unchanged,
and its status is the literal "normal"; on the successful path the handler
appends exactly this row to the `locations` table. -/
theorem C9_inserted_row (request : RequestRow) :
    (newLocationRow request).name = request.location_name ∧
    (newLocationRow request).region = request.region ∧
    (newLocationRow request).latitude = request.latitude ∧
    (newLocationRow request).longitude = request.longitude ∧
    (newLocationRow request).thingspeak_channel_id = request.thingspeak_channel_id ∧
    (newLocationRow request).thingspeak_read_key = request.thingspeak_read_key ∧
    (newLocationRow request).status = "normal" ∧
    ∀ (uid reviewedAt : String) (db : DB),
      (handleApprove request (some uid) false false reviewedAt db).1.locations
        = db.locations ++ [newLocationRow request] :=
  ⟨rfl, rfl, rfl, rfl, rfl, rfl, rfl, fun _ _ _ => rfl⟩

/-- C10: when the auth lookup returns no user, both handlers throw before any
remote write: the table state is returned unchanged, the list of applied
writes is empty, and the handler reports failure. -/
theorem C10_unauthenticated_no_writes (request : RequestRow)
    (insertError updateError rejectUpdateError : Bool) (reviewedAt : String) (db : DB) :
    handleApprove request none insertError updateError reviewedAt db = (db, [], false) ∧
    handleReject request none rejectUpdateError reviewedAt db = (db, [], false) :=
  ⟨rfl, rfl⟩

end EmberSentinel
